import Mathlib

/-!
Vehicle action methods (`pkg/vehicle/actions.go`).

A shallow embedding of the eleven action methods of `*Vehicle` that trigger
physical vehicle actions.  Every method builds one protocol message and hands
it to one of two execution sinks, `executeClosureAction` or
`executeCarServerAction`, returning whatever the sink returns.

* Go `error` is `Option ε` (`none` is `nil`).
* A Go pointer or interface field is an `Option` (`none` is `nil`); a composite
  literal `&T{...}` is `some { ... }`.
* `int32` is `Int`; the methods do no arithmetic on it.
* The sinks are effectful, so they are functions on an explicit world state `σ`
  that return the error together with the next state.
-/

set_option autoImplicit false

namespace vcsec

/-- Modelled from the spec: the generated enum `vcsec.ClosureMoveType_E` is
declared outside `actions.go`; these are the three move verbs (Move, Open,
Close) that `actions.go` names and the data model lists. -/
inductive ClosureMoveType_E where
  | ClosureMoveType_E_CLOSURE_MOVE_TYPE_MOVE
  | ClosureMoveType_E_CLOSURE_MOVE_TYPE_OPEN
  | ClosureMoveType_E_CLOSURE_MOVE_TYPE_CLOSE
  deriving DecidableEq, Repr

end vcsec

namespace carserver

/-- Modelled from the spec: generated message `carserver.Void`, an empty
message used as the value of a selector without payload. -/
structure Void where
  deriving DecidableEq, Repr

/-- Modelled from the spec: generated message
`carserver.VehicleControlHonkHornAction` (horn-honk, no payload). -/
structure VehicleControlHonkHornAction where
  deriving DecidableEq, Repr

/-- Modelled from the spec: generated message
`carserver.VehicleControlFlashLightsAction` (flash-lights, no payload). -/
structure VehicleControlFlashLightsAction where
  deriving DecidableEq, Repr

/-- Modelled from the spec: generated message `carserver.ChargePortDoorClose`
(charge-port-door-close, no payload). -/
structure ChargePortDoorClose where
  deriving DecidableEq, Repr

/-- Modelled from the spec: generated message `carserver.ChargePortDoorOpen`
(charge-port-door-open, no payload). -/
structure ChargePortDoorOpen where
  deriving DecidableEq, Repr

/-- Modelled from the spec: the one-of `SunroofLevel` of the generated sunroof
message; `actions.go` uses the wrapper
`VehicleControlSunroofOpenCloseAction_AbsoluteLevel` with its `int32` field
`AbsoluteLevel`. -/
inductive isVehicleControlSunroofOpenCloseAction_SunroofLevel where
  | VehicleControlSunroofOpenCloseAction_AbsoluteLevel (AbsoluteLevel : Int)
  deriving DecidableEq, Repr

/-- Modelled from the spec: generated message
`carserver.VehicleControlSunroofOpenCloseAction` (sunroof, absolute-level
payload), with the field `actions.go` populates. -/
structure VehicleControlSunroofOpenCloseAction where
  SunroofLevel : Option isVehicleControlSunroofOpenCloseAction_SunroofLevel
  deriving DecidableEq, Repr

/-- Modelled from the spec: the one-of `Action` of the generated window
message: the close selector and the vent selector, each holding a `*Void`. -/
inductive isVehicleControlWindowAction_Action where
  | VehicleControlWindowAction_Close (Close : Option Void)
  | VehicleControlWindowAction_Vent (Vent : Option Void)
  deriving DecidableEq, Repr

/-- Modelled from the spec: generated message
`carserver.VehicleControlWindowAction` (window-action with a close/vent
selector and no payload). -/
structure VehicleControlWindowAction where
  Action : Option isVehicleControlWindowAction_Action
  deriving DecidableEq, Repr

/-- Modelled from the spec: the one-of `VehicleActionMsg` of the generated
message `carserver.VehicleAction`, with the six wrappers `actions.go` uses;
each wrapper holds a pointer to the inner message of the same name. -/
inductive isVehicleAction_VehicleActionMsg where
  | VehicleAction_VehicleControlHonkHornAction
      (VehicleControlHonkHornAction : Option VehicleControlHonkHornAction)
  | VehicleAction_VehicleControlFlashLightsAction
      (VehicleControlFlashLightsAction : Option VehicleControlFlashLightsAction)
  | VehicleAction_VehicleControlSunroofOpenCloseAction
      (VehicleControlSunroofOpenCloseAction : Option VehicleControlSunroofOpenCloseAction)
  | VehicleAction_VehicleControlWindowAction
      (VehicleControlWindowAction : Option VehicleControlWindowAction)
  | VehicleAction_ChargePortDoorClose (ChargePortDoorClose : Option ChargePortDoorClose)
  | VehicleAction_ChargePortDoorOpen (ChargePortDoorOpen : Option ChargePortDoorOpen)
  deriving DecidableEq, Repr

/-- Modelled from the spec: generated message `carserver.VehicleAction`, the
vehicle-control message proper. -/
structure VehicleAction where
  VehicleActionMsg : Option isVehicleAction_VehicleActionMsg
  deriving DecidableEq, Repr

/-- Modelled from the spec: generated wrapper `carserver.Action_VehicleAction`,
the outer envelope handed to the vehicle-control sink. -/
structure Action_VehicleAction where
  VehicleAction : Option VehicleAction
  deriving DecidableEq, Repr

end carserver

namespace vehicle

open vcsec carserver

/-- Modelled from the spec: type `Closure` and its constants `ClosureTrunk` and
`ClosureFrunk` are declared in another file of package `vehicle`; the data
model gives the closure targets addressed here as the fixed set Trunk, Frunk. -/
inductive Closure where
  | ClosureTrunk
  | ClosureFrunk
  deriving DecidableEq, Repr

/-- Modelled from the spec: the receiver `*Vehicle`, as seen by `actions.go`:
its two execution sinks, defined elsewhere in package `vehicle`.  They are
arbitrary functions of the call context `κ`, the submitted message and the
world state `σ`, returning a Go `error` and the next world state. -/
structure Vehicle (κ σ ε : Type) where
  executeClosureAction : κ → ClosureMoveType_E → Closure → σ → Option ε × σ
  executeCarServerAction : κ → Action_VehicleAction → σ → Option ε × σ

section Methods

variable {κ σ ε : Type}

/-- Source: `func (v *Vehicle) ActuateTrunk(ctx context.Context) error` -/
def Vehicle.ActuateTrunk (v : Vehicle κ σ ε) (ctx : κ) : σ → Option ε × σ :=
  v.executeClosureAction ctx .ClosureMoveType_E_CLOSURE_MOVE_TYPE_MOVE .ClosureTrunk

/-- Source: `func (v *Vehicle) OpenTrunk(ctx context.Context) error` -/
def Vehicle.OpenTrunk (v : Vehicle κ σ ε) (ctx : κ) : σ → Option ε × σ :=
  v.executeClosureAction ctx .ClosureMoveType_E_CLOSURE_MOVE_TYPE_OPEN .ClosureTrunk

/-- Source: `func (v *Vehicle) CloseTrunk(ctx context.Context) error` -/
def Vehicle.CloseTrunk (v : Vehicle κ σ ε) (ctx : κ) : σ → Option ε × σ :=
  v.executeClosureAction ctx .ClosureMoveType_E_CLOSURE_MOVE_TYPE_CLOSE .ClosureTrunk

/-- Source: `func (v *Vehicle) OpenFrunk(ctx context.Context) error` -/
def Vehicle.OpenFrunk (v : Vehicle κ σ ε) (ctx : κ) : σ → Option ε × σ :=
  v.executeClosureAction ctx .ClosureMoveType_E_CLOSURE_MOVE_TYPE_MOVE .ClosureFrunk

/-- Source: `func (v *Vehicle) HonkHorn(ctx context.Context) error` -/
def Vehicle.HonkHorn (v : Vehicle κ σ ε) (ctx : κ) : σ → Option ε × σ :=
  v.executeCarServerAction ctx
    { VehicleAction := some
        { VehicleActionMsg := some (.VehicleAction_VehicleControlHonkHornAction (some {})) } }

/-- Source: `func (v *Vehicle) FlashLights(ctx context.Context) error` -/
def Vehicle.FlashLights (v : Vehicle κ σ ε) (ctx : κ) : σ → Option ε × σ :=
  v.executeCarServerAction ctx
    { VehicleAction := some
        { VehicleActionMsg := some (.VehicleAction_VehicleControlFlashLightsAction (some {})) } }

/-- Source: `func (v *Vehicle) ChangeSunroofState(ctx context.Context, sunroofLevel int32) error` -/
def Vehicle.ChangeSunroofState (v : Vehicle κ σ ε) (ctx : κ) (sunroofLevel : Int) :
    σ → Option ε × σ :=
  v.executeCarServerAction ctx
    { VehicleAction := some
        { VehicleActionMsg := some (.VehicleAction_VehicleControlSunroofOpenCloseAction (some
            { SunroofLevel := some
                (.VehicleControlSunroofOpenCloseAction_AbsoluteLevel sunroofLevel) })) } }

/-- Source: `func (v *Vehicle) CloseWindows(ctx context.Context) error` -/
def Vehicle.CloseWindows (v : Vehicle κ σ ε) (ctx : κ) : σ → Option ε × σ :=
  v.executeCarServerAction ctx
    { VehicleAction := some
        { VehicleActionMsg := some (.VehicleAction_VehicleControlWindowAction (some
            { Action := some (.VehicleControlWindowAction_Close (some {})) })) } }

/-- Source: `func (v *Vehicle) VentWindows(ctx context.Context) error` -/
def Vehicle.VentWindows (v : Vehicle κ σ ε) (ctx : κ) : σ → Option ε × σ :=
  v.executeCarServerAction ctx
    { VehicleAction := some
        { VehicleActionMsg := some (.VehicleAction_VehicleControlWindowAction (some
            { Action := some (.VehicleControlWindowAction_Vent (some {})) })) } }

/-- Source: `func (v *Vehicle) ChargePortClose(ctx context.Context) error` -/
def Vehicle.ChargePortClose (v : Vehicle κ σ ε) (ctx : κ) : σ → Option ε × σ :=
  v.executeCarServerAction ctx
    { VehicleAction := some
        { VehicleActionMsg := some (.VehicleAction_ChargePortDoorClose (some {})) } }

/-- Source: `func (v *Vehicle) ChargePortOpen(ctx context.Context) error` -/
def Vehicle.ChargePortOpen (v : Vehicle κ σ ε) (ctx : κ) : σ → Option ε × σ :=
  v.executeCarServerAction ctx
    { VehicleAction := some
        { VehicleActionMsg := some (.VehicleAction_ChargePortDoorOpen (some {})) } }

end Methods

/-- The eleven action methods of the surface, with their arguments besides the
call context (only `ChangeSunroofState` has one). -/
inductive Method where
  | ActuateTrunk
  | OpenTrunk
  | CloseTrunk
  | OpenFrunk
  | HonkHorn
  | FlashLights
  | ChangeSunroofState (sunroofLevel : Int)
  | CloseWindows
  | VentWindows
  | ChargePortClose
  | ChargePortOpen
  deriving DecidableEq, Repr

/-- One call into an execution sink: the sink called and the message passed. -/
inductive SinkCall where
  | executeClosureAction (action : ClosureMoveType_E) (closure : Closure)
  | executeCarServerAction (action : Action_VehicleAction)
  deriving DecidableEq, Repr

section Runs

variable {κ σ ε : Type}

/-- A caller invoking the named method on `v` with context `ctx`. -/
def Method.invoke (v : Vehicle κ σ ε) (ctx : κ) : Method → σ → Option ε × σ
  | .ActuateTrunk => v.ActuateTrunk ctx
  | .OpenTrunk => v.OpenTrunk ctx
  | .CloseTrunk => v.CloseTrunk ctx
  | .OpenFrunk => v.OpenFrunk ctx
  | .HonkHorn => v.HonkHorn ctx
  | .FlashLights => v.FlashLights ctx
  | .ChangeSunroofState sunroofLevel => v.ChangeSunroofState ctx sunroofLevel
  | .CloseWindows => v.CloseWindows ctx
  | .VentWindows => v.VentWindows ctx
  | .ChargePortClose => v.ChargePortClose ctx
  | .ChargePortOpen => v.ChargePortOpen ctx

/-- The sink call `c` made directly on `v` with context `ctx`. -/
def SinkCall.run (v : Vehicle κ σ ε) (ctx : κ) : SinkCall → σ → Option ε × σ
  | .executeClosureAction action closure => v.executeClosureAction ctx action closure
  | .executeCarServerAction action => v.executeCarServerAction ctx action

/-- The vehicle `v` with a call log next to its world state: each sink behaves
as the sink of `v` does and appends the call it received to the log. -/
def Vehicle.recording (v : Vehicle κ σ ε) : Vehicle κ (σ × List (κ × SinkCall)) ε where
  executeClosureAction ctx action closure s :=
    ((v.executeClosureAction ctx action closure s.1).1,
      (v.executeClosureAction ctx action closure s.1).2,
      s.2 ++ [(ctx, SinkCall.executeClosureAction action closure)])
  executeCarServerAction ctx action s :=
    ((v.executeCarServerAction ctx action s.1).1,
      (v.executeCarServerAction ctx action s.1).2,
      s.2 ++ [(ctx, SinkCall.executeCarServerAction action)])

/-- A caller invoking a sequence of methods one after the other, whatever each
of them returns. -/
def runAll (v : Vehicle κ σ ε) : List (κ × Method) → σ → σ
  | [], s => s
  | (ctx, m) :: rest, s => runAll v rest (m.invoke v ctx s).2

end Runs

/-- A concrete vehicle for evaluating the methods: the world state counts the
sink calls made so far; the closure sink fails with error `1` on every call,
the vehicle-control sink fails with error `2` when the count is odd. -/
def sampleVehicle : Vehicle Nat Nat Nat where
  executeClosureAction _ _ _ s := (some 1, s + 1)
  executeCarServerAction _ _ s := (if s % 2 = 1 then some 2 else none, s + 1)

/-! Shared lemmas. -/

section Lemmas

variable {κ σ ε : Type}

/-- Every method is one sink call: on any vehicle it returns what that call
returns, and on the recording vehicle it appends that one call to the log. -/
theorem Method.invoke_eq_run (m : Method) (v : Vehicle κ σ ε) :
    ∃ c : SinkCall, ∀ ctx : κ, (∀ s, m.invoke v ctx s = c.run v ctx s) ∧
      ∀ s l, m.invoke v.recording ctx (s, l) =
        ((c.run v ctx s).1, (c.run v ctx s).2, l ++ [(ctx, c)]) := by
  cases m with
  | ActuateTrunk =>
    exact ⟨.executeClosureAction .ClosureMoveType_E_CLOSURE_MOVE_TYPE_MOVE .ClosureTrunk,
      fun _ => ⟨fun _ => rfl, fun _ _ => rfl⟩⟩
  | OpenTrunk =>
    exact ⟨.executeClosureAction .ClosureMoveType_E_CLOSURE_MOVE_TYPE_OPEN .ClosureTrunk,
      fun _ => ⟨fun _ => rfl, fun _ _ => rfl⟩⟩
  | CloseTrunk =>
    exact ⟨.executeClosureAction .ClosureMoveType_E_CLOSURE_MOVE_TYPE_CLOSE .ClosureTrunk,
      fun _ => ⟨fun _ => rfl, fun _ _ => rfl⟩⟩
  | OpenFrunk =>
    exact ⟨.executeClosureAction .ClosureMoveType_E_CLOSURE_MOVE_TYPE_MOVE .ClosureFrunk,
      fun _ => ⟨fun _ => rfl, fun _ _ => rfl⟩⟩
  | HonkHorn =>
    exact ⟨.executeCarServerAction ⟨some ⟨some
      (.VehicleAction_VehicleControlHonkHornAction (some {}))⟩⟩, fun _ => ⟨fun _ => rfl, fun _ _ => rfl⟩⟩
  | FlashLights =>
    exact ⟨.executeCarServerAction ⟨some ⟨some
      (.VehicleAction_VehicleControlFlashLightsAction (some {}))⟩⟩, fun _ => ⟨fun _ => rfl, fun _ _ => rfl⟩⟩
  | ChangeSunroofState sunroofLevel =>
    exact ⟨.executeCarServerAction ⟨some ⟨some
      (.VehicleAction_VehicleControlSunroofOpenCloseAction (some ⟨some
        (.VehicleControlSunroofOpenCloseAction_AbsoluteLevel sunroofLevel)⟩))⟩⟩,
      fun _ => ⟨fun _ => rfl, fun _ _ => rfl⟩⟩
  | CloseWindows =>
    exact ⟨.executeCarServerAction ⟨some ⟨some
      (.VehicleAction_VehicleControlWindowAction (some ⟨some
        (.VehicleControlWindowAction_Close (some {}))⟩))⟩⟩, fun _ => ⟨fun _ => rfl, fun _ _ => rfl⟩⟩
  | VentWindows =>
    exact ⟨.executeCarServerAction ⟨some ⟨some
      (.VehicleAction_VehicleControlWindowAction (some ⟨some
        (.VehicleControlWindowAction_Vent (some {}))⟩))⟩⟩, fun _ => ⟨fun _ => rfl, fun _ _ => rfl⟩⟩
  | ChargePortClose =>
    exact ⟨.executeCarServerAction ⟨some ⟨some
      (.VehicleAction_ChargePortDoorClose (some {}))⟩⟩, fun _ => ⟨fun _ => rfl, fun _ _ => rfl⟩⟩
  | ChargePortOpen =>
    exact ⟨.executeCarServerAction ⟨some ⟨some
      (.VehicleAction_ChargePortDoorOpen (some {}))⟩⟩, fun _ => ⟨fun _ => rfl, fun _ _ => rfl⟩⟩

/-- The log only grows along a sequence of method calls: the new log is the
old one followed by one entry per call. -/
theorem runAll_log_append (v : Vehicle κ σ ε) (ms : List (κ × Method)) :
    ∀ (s : σ) (l : List (κ × SinkCall)),
      ∃ l', (runAll v.recording ms (s, l)).2 = l ++ l' ∧ l'.length = ms.length := by
  induction ms with
  | nil => intro s l; exact ⟨[], by simp [runAll]⟩
  | cons p rest ih =>
    intro s l
    obtain ⟨ctx, m⟩ := p
    obtain ⟨c, hc⟩ := m.invoke_eq_run v
    obtain ⟨l', h, hlen⟩ := ih (c.run v ctx s).2 (l ++ [(ctx, c)])
    refine ⟨(ctx, c) :: l', ?_, by simp [hlen]⟩
    simp only [runAll, (hc ctx).2, h, List.append_assoc, List.singleton_append]

/-- Running two sequences of method calls back to back. -/
theorem runAll_append (v : Vehicle κ σ ε) (ms ns : List (κ × Method)) :
    ∀ s : σ, runAll v (ms ++ ns) s = runAll v ns (runAll v ms s) := by
  induction ms with
  | nil => intro s; rfl
  | cons p rest ih =>
    intro s
    obtain ⟨ctx, m⟩ := p
    show runAll v (rest ++ ns) (m.invoke v ctx s).2 = _
    exact ih _

/-- The one call a method makes is never a closure call with target
`ClosureFrunk` and a verb other than MOVE. -/
theorem Method.invoke_frunk_move (m : Method) (v : Vehicle κ σ ε) (ctx : κ) (s : σ)
    (l : List (κ × SinkCall)) :
    ∃ c : SinkCall, (m.invoke v.recording ctx (s, l)).2.2 = l ++ [(ctx, c)] ∧
      ∀ a, c = SinkCall.executeClosureAction a Closure.ClosureFrunk →
        a = ClosureMoveType_E.ClosureMoveType_E_CLOSURE_MOVE_TYPE_MOVE := by
  cases m <;> exact ⟨_, rfl, fun a h => by cases h <;> rfl⟩

end Lemmas

/-! The claims. -/

section Claims

variable {κ σ ε : Type}

/-- C1: on a vehicle whose sinks log their calls, every one of the eleven action
methods, for every argument, extends the log by exactly one entry, and that
entry is a call of the sink of its own domain: `executeClosureAction` for
`ActuateTrunk`, `OpenTrunk`, `CloseTrunk`, `OpenFrunk`, and
`executeCarServerAction` for `HonkHorn`, `FlashLights`, `ChangeSunroofState`,
`CloseWindows`, `VentWindows`, `ChargePortOpen`, `ChargePortClose`. -/
theorem C1_one_call_into_own_sink (v : Vehicle κ σ ε) (ctx : κ) (s : σ)
    (l : List (κ × SinkCall)) (sunroofLevel : Int) :
    (∃ a c, (v.recording.ActuateTrunk ctx (s, l)).2.2
        = l ++ [(ctx, SinkCall.executeClosureAction a c)]) ∧
    (∃ a c, (v.recording.OpenTrunk ctx (s, l)).2.2
        = l ++ [(ctx, SinkCall.executeClosureAction a c)]) ∧
    (∃ a c, (v.recording.CloseTrunk ctx (s, l)).2.2
        = l ++ [(ctx, SinkCall.executeClosureAction a c)]) ∧
    (∃ a c, (v.recording.OpenFrunk ctx (s, l)).2.2
        = l ++ [(ctx, SinkCall.executeClosureAction a c)]) ∧
    (∃ a, (v.recording.HonkHorn ctx (s, l)).2.2
        = l ++ [(ctx, SinkCall.executeCarServerAction a)]) ∧
    (∃ a, (v.recording.FlashLights ctx (s, l)).2.2
        = l ++ [(ctx, SinkCall.executeCarServerAction a)]) ∧
    (∃ a, (v.recording.ChangeSunroofState ctx sunroofLevel (s, l)).2.2
        = l ++ [(ctx, SinkCall.executeCarServerAction a)]) ∧
    (∃ a, (v.recording.CloseWindows ctx (s, l)).2.2
        = l ++ [(ctx, SinkCall.executeCarServerAction a)]) ∧
    (∃ a, (v.recording.VentWindows ctx (s, l)).2.2
        = l ++ [(ctx, SinkCall.executeCarServerAction a)]) ∧
    (∃ a, (v.recording.ChargePortOpen ctx (s, l)).2.2
        = l ++ [(ctx, SinkCall.executeCarServerAction a)]) ∧
    (∃ a, (v.recording.ChargePortClose ctx (s, l)).2.2
        = l ++ [(ctx, SinkCall.executeCarServerAction a)]) :=
  ⟨⟨_, _, rfl⟩, ⟨_, _, rfl⟩, ⟨_, _, rfl⟩, ⟨_, _, rfl⟩, ⟨_, rfl⟩, ⟨_, rfl⟩, ⟨_, rfl⟩,
    ⟨_, rfl⟩, ⟨_, rfl⟩, ⟨_, rfl⟩, ⟨_, rfl⟩⟩

/-- C2: `ActuateTrunk`, `OpenTrunk` and `CloseTrunk` each make the one closure
call with target `ClosureTrunk`, with the verbs MOVE, OPEN and CLOSE
respectively; the three verbs are pairwise different, and the call context and
the target are the same in all three. -/
theorem C2_trunk_verbs (v : Vehicle κ σ ε) (ctx : κ) (s : σ) (l : List (κ × SinkCall)) :
    (v.recording.ActuateTrunk ctx (s, l)).2.2 = l ++ [(ctx, SinkCall.executeClosureAction
        ClosureMoveType_E.ClosureMoveType_E_CLOSURE_MOVE_TYPE_MOVE Closure.ClosureTrunk)] ∧
    (v.recording.OpenTrunk ctx (s, l)).2.2 = l ++ [(ctx, SinkCall.executeClosureAction
        ClosureMoveType_E.ClosureMoveType_E_CLOSURE_MOVE_TYPE_OPEN Closure.ClosureTrunk)] ∧
    (v.recording.CloseTrunk ctx (s, l)).2.2 = l ++ [(ctx, SinkCall.executeClosureAction
        ClosureMoveType_E.ClosureMoveType_E_CLOSURE_MOVE_TYPE_CLOSE Closure.ClosureTrunk)] ∧
    ClosureMoveType_E.ClosureMoveType_E_CLOSURE_MOVE_TYPE_MOVE
      ≠ ClosureMoveType_E.ClosureMoveType_E_CLOSURE_MOVE_TYPE_OPEN ∧
    ClosureMoveType_E.ClosureMoveType_E_CLOSURE_MOVE_TYPE_MOVE
      ≠ ClosureMoveType_E.ClosureMoveType_E_CLOSURE_MOVE_TYPE_CLOSE ∧
    ClosureMoveType_E.ClosureMoveType_E_CLOSURE_MOVE_TYPE_OPEN
      ≠ ClosureMoveType_E.ClosureMoveType_E_CLOSURE_MOVE_TYPE_CLOSE :=
  ⟨rfl, rfl, rfl, by decide, by decide, by decide⟩

/-- C3: `OpenFrunk` makes the one closure call with target `ClosureFrunk` and
verb MOVE; `ActuateTrunk` makes the call with the same verb and the other
target, `ClosureTrunk`. -/
theorem C3_frunk_move (v : Vehicle κ σ ε) (ctx : κ) (s : σ) (l : List (κ × SinkCall)) :
    (v.recording.OpenFrunk ctx (s, l)).2.2 = l ++ [(ctx, SinkCall.executeClosureAction
        ClosureMoveType_E.ClosureMoveType_E_CLOSURE_MOVE_TYPE_MOVE Closure.ClosureFrunk)] ∧
    (v.recording.ActuateTrunk ctx (s, l)).2.2 = l ++ [(ctx, SinkCall.executeClosureAction
        ClosureMoveType_E.ClosureMoveType_E_CLOSURE_MOVE_TYPE_MOVE Closure.ClosureTrunk)] ∧
    Closure.ClosureFrunk ≠ Closure.ClosureTrunk :=
  ⟨rfl, rfl, by decide⟩

/-- C4: along any sequence of action-method calls, with any arguments and on
any vehicle, every logged closure call whose target is `ClosureFrunk` has the
verb MOVE; in particular none has the verb CLOSE.  A single method call is the
one-element sequence. -/
theorem C4_frunk_never_closed (v : Vehicle κ σ ε) (ms : List (κ × Method)) (s : σ)
    (ctx : κ) (a : ClosureMoveType_E)
    (h : (ctx, SinkCall.executeClosureAction a Closure.ClosureFrunk)
      ∈ (runAll v.recording ms (s, [])).2) :
    a = ClosureMoveType_E.ClosureMoveType_E_CLOSURE_MOVE_TYPE_MOVE ∧
      a ≠ ClosureMoveType_E.ClosureMoveType_E_CLOSURE_MOVE_TYPE_CLOSE := by
  have key : ∀ (ms : List (κ × Method)) (s : σ) (l : List (κ × SinkCall)),
      (∀ e ∈ l, ∀ b, e.2 = SinkCall.executeClosureAction b Closure.ClosureFrunk →
        b = ClosureMoveType_E.ClosureMoveType_E_CLOSURE_MOVE_TYPE_MOVE) →
      ∀ e ∈ (runAll v.recording ms (s, l)).2, ∀ b,
        e.2 = SinkCall.executeClosureAction b Closure.ClosureFrunk →
        b = ClosureMoveType_E.ClosureMoveType_E_CLOSURE_MOVE_TYPE_MOVE := by
    intro ms
    induction ms with
    | nil => intro s l hl; exact hl
    | cons p rest ih =>
      intro s l hl
      obtain ⟨ctx1, m⟩ := p
      obtain ⟨c, hc, hmove⟩ := m.invoke_frunk_move v ctx1 s l
      have hst : (m.invoke v.recording ctx1 (s, l)).2
          = ((m.invoke v.recording ctx1 (s, l)).2.1, l ++ [(ctx1, c)]) := by
        rw [← hc]
      simp only [runAll]
      rw [hst]
      apply ih
      intro e he b hb
      rcases List.mem_append.1 he with h1 | h1
      · exact hl e h1 b hb
      · rw [List.mem_singleton] at h1
        subst h1
        exact hmove b hb
  have hmove := key ms s [] (fun e he => absurd he (List.not_mem_nil e)) _ h a rfl
  subst hmove
  exact ⟨rfl, by decide⟩

/-- Witness for C4: after `CloseTrunk`, `OpenFrunk`, `CloseWindows` on the sample
vehicle the log holds a frunk call, and its verb is MOVE. -/
theorem C4_frunk_never_closed_witness :
    (5, SinkCall.executeClosureAction
        ClosureMoveType_E.ClosureMoveType_E_CLOSURE_MOVE_TYPE_MOVE Closure.ClosureFrunk)
      ∈ (runAll sampleVehicle.recording
          [(4, Method.CloseTrunk), (5, Method.OpenFrunk), (6, Method.CloseWindows)] (0, [])).2 ∧
    (ClosureMoveType_E.ClosureMoveType_E_CLOSURE_MOVE_TYPE_MOVE
        = ClosureMoveType_E.ClosureMoveType_E_CLOSURE_MOVE_TYPE_MOVE ∧
      ClosureMoveType_E.ClosureMoveType_E_CLOSURE_MOVE_TYPE_MOVE
        ≠ ClosureMoveType_E.ClosureMoveType_E_CLOSURE_MOVE_TYPE_CLOSE) :=
  ⟨List.Mem.tail _ (List.Mem.head _),
    C4_frunk_never_closed sampleVehicle
      [(4, Method.CloseTrunk), (5, Method.OpenFrunk), (6, Method.CloseWindows)] 0 5 _
      (List.Mem.tail _ (List.Mem.head _))⟩

/-- C5: for every integer `sunroofLevel` (so for every `int32`, with 0, the
negative values and 2^31-1), `ChangeSunroofState` makes the one vehicle-control
call with the sunroof open/close message whose `AbsoluteLevel` is
`sunroofLevel` itself, and its result and next state are those of that call:
no level is turned away before the call. -/
theorem C5_sunroof_level_unchanged (v : Vehicle κ σ ε) (ctx : κ) (s : σ)
    (l : List (κ × SinkCall)) (sunroofLevel : Int) :
    v.recording.ChangeSunroofState ctx sunroofLevel (s, l) =
      ((v.executeCarServerAction ctx
          { VehicleAction := some { VehicleActionMsg := some (
              .VehicleAction_VehicleControlSunroofOpenCloseAction (some { SunroofLevel := some (
                .VehicleControlSunroofOpenCloseAction_AbsoluteLevel sunroofLevel) })) } } s).1,
        (v.executeCarServerAction ctx
          { VehicleAction := some { VehicleActionMsg := some (
              .VehicleAction_VehicleControlSunroofOpenCloseAction (some { SunroofLevel := some (
                .VehicleControlSunroofOpenCloseAction_AbsoluteLevel sunroofLevel) })) } } s).2,
        l ++ [(ctx, SinkCall.executeCarServerAction
          { VehicleAction := some { VehicleActionMsg := some (
              .VehicleAction_VehicleControlSunroofOpenCloseAction (some { SunroofLevel := some (
                .VehicleControlSunroofOpenCloseAction_AbsoluteLevel sunroofLevel) })) } })]) :=
  rfl

/-- C6: `HonkHorn`, `FlashLights`, `ChargePortOpen` and `ChargePortClose` make the
one vehicle-control call with, respectively, the horn-honk, the flash-lights,
the charge-port-door-open and the charge-port-door-close variant, each holding
the empty message of that variant. -/
theorem C6_payload_free_variants (v : Vehicle κ σ ε) (ctx : κ) (s : σ)
    (l : List (κ × SinkCall)) :
    (v.recording.HonkHorn ctx (s, l)).2.2 = l ++ [(ctx, SinkCall.executeCarServerAction
      { VehicleAction := some { VehicleActionMsg := some (
          .VehicleAction_VehicleControlHonkHornAction
            (some VehicleControlHonkHornAction.mk)) } })] ∧
    (v.recording.FlashLights ctx (s, l)).2.2 = l ++ [(ctx, SinkCall.executeCarServerAction
      { VehicleAction := some { VehicleActionMsg := some (
          .VehicleAction_VehicleControlFlashLightsAction
            (some VehicleControlFlashLightsAction.mk)) } })] ∧
    (v.recording.ChargePortOpen ctx (s, l)).2.2 = l ++ [(ctx, SinkCall.executeCarServerAction
      { VehicleAction := some { VehicleActionMsg := some (
          .VehicleAction_ChargePortDoorOpen (some ChargePortDoorOpen.mk)) } })] ∧
    (v.recording.ChargePortClose ctx (s, l)).2.2 = l ++ [(ctx, SinkCall.executeCarServerAction
      { VehicleAction := some { VehicleActionMsg := some (
          .VehicleAction_ChargePortDoorClose (some ChargePortDoorClose.mk)) } })] :=
  ⟨rfl, rfl, rfl, rfl⟩

/-- C7: `CloseWindows` and `VentWindows` both make the one vehicle-control call
with a window-action message; the first holds the close selector and the second
the vent selector, each with an empty `Void` value.  The two selectors are
different, and everything around them (sink, call context, envelope, the
window-action variant) is the same; the window message has no other field. -/
theorem C7_windows_differ_in_selector (v : Vehicle κ σ ε) (ctx : κ) (s : σ)
    (l : List (κ × SinkCall)) :
    (v.recording.CloseWindows ctx (s, l)).2.2 = l ++ [(ctx, SinkCall.executeCarServerAction
      { VehicleAction := some { VehicleActionMsg := some (
          .VehicleAction_VehicleControlWindowAction (some { Action := some (
            isVehicleControlWindowAction_Action.VehicleControlWindowAction_Close
              (some Void.mk)) })) } })] ∧
    (v.recording.VentWindows ctx (s, l)).2.2 = l ++ [(ctx, SinkCall.executeCarServerAction
      { VehicleAction := some { VehicleActionMsg := some (
          .VehicleAction_VehicleControlWindowAction (some { Action := some (
            isVehicleControlWindowAction_Action.VehicleControlWindowAction_Vent
              (some Void.mk)) })) } })] ∧
    isVehicleControlWindowAction_Action.VehicleControlWindowAction_Close (some Void.mk)
      ≠ isVehicleControlWindowAction_Action.VehicleControlWindowAction_Vent (some Void.mk) :=
  ⟨rfl, rfl, by decide⟩

/-- C8: for every action method `m`, every vehicle `v` (every behaviour of the
sinks), every context and state, there is one sink call `c` such that the
result and next state of `m` are exactly those of `c`: `m` returns the error
`e` if and only if `c` does, and returns `nil` if and only if `c` does.  On the
recording vehicle the log grows by the single entry `c` whether or not `c`
failed, so there is no second call after a failure. -/
theorem C8_result_is_sink_result (m : Method) (v : Vehicle κ σ ε) (ctx : κ) (s : σ)
    (l : List (κ × SinkCall)) :
    ∃ c : SinkCall,
      m.invoke v ctx s = c.run v ctx s ∧
      (∀ e, (m.invoke v ctx s).1 = some e ↔ (c.run v ctx s).1 = some e) ∧
      ((m.invoke v ctx s).1 = none ↔ (c.run v ctx s).1 = none) ∧
      (m.invoke v.recording ctx (s, l)).1 = (c.run v ctx s).1 ∧
      (m.invoke v.recording ctx (s, l)).2.1 = (c.run v ctx s).2 ∧
      (m.invoke v.recording ctx (s, l)).2.2 = l ++ [(ctx, c)] := by
  obtain ⟨c, hc⟩ := m.invoke_eq_run v
  have h1 := (hc ctx).1 s
  have h2 := (hc ctx).2 s l
  refine ⟨c, h1, fun e => by rw [h1], by rw [h1], ?_, ?_, ?_⟩ <;> rw [h2]

/-- C9: take any vehicle, any method `m` with its arguments, and any sequence of
other method calls in between.  The first call of `m` logs one sink call `c`;
after the calls in between (which log one entry each), the second call of `m`
logs the same sink call `c` again, whatever the sinks returned meanwhile. -/
theorem C9_same_message_twice (v : Vehicle κ σ ε) (m : Method) (ctx1 ctx2 : κ)
    (between : List (κ × Method)) (s : σ) (l : List (κ × SinkCall)) :
    ∃ (c : SinkCall) (mid : List (κ × SinkCall)),
      (m.invoke v.recording ctx1 (s, l)).2.2 = l ++ [(ctx1, c)] ∧
      (runAll v.recording ((ctx1, m) :: between) (s, l)).2 = l ++ [(ctx1, c)] ++ mid ∧
      mid.length = between.length ∧
      (runAll v.recording ((ctx1, m) :: between ++ [(ctx2, m)]) (s, l)).2
        = l ++ [(ctx1, c)] ++ mid ++ [(ctx2, c)] := by
  obtain ⟨c, hrun⟩ := m.invoke_eq_run v
  have hc : ∀ ctx s l, m.invoke v.recording ctx (s, l) =
      ((c.run v ctx s).1, (c.run v ctx s).2, l ++ [(ctx, c)]) := fun ctx => (hrun ctx).2
  obtain ⟨mid, hmid, hlen⟩ :=
    runAll_log_append v between (c.run v ctx1 s).2 (l ++ [(ctx1, c)])
  have hfirst : runAll v.recording ((ctx1, m) :: between) (s, l)
      = runAll v.recording between ((c.run v ctx1 s).2, l ++ [(ctx1, c)]) := by
    simp only [runAll, hc]
  refine ⟨c, mid, by rw [hc], by rw [hfirst, hmid], hlen, ?_⟩
  have hsplit : ((ctx1, m) :: between ++ [(ctx2, m)])
      = ((ctx1, m) :: between) ++ [(ctx2, m)] := rfl
  rw [hsplit, runAll_append, hfirst]
  generalize hst : runAll v.recording between ((c.run v ctx1 s).2, l ++ [(ctx1, c)]) = st at hmid
  obtain ⟨s2, l2⟩ := st
  simp only at hmid
  subst hmid
  simp only [runAll, hc]

/-- C10: every action-method call logs a sink call, and the logged call
identifies the method and its argument.  For any two methods `m1`, `m2`, on any
vehicles, contexts, states and logs, the first call logs exactly one sink call
`c1` and the second exactly one sink call `c2`, and `c1 = c2` (same sink, same
message) holds if and only if `m1 = m2`.  So two different methods always
submit different (sink, message) pairs, and `ChangeSunroofState a` and
`ChangeSunroofState b` submit the same message only when `a = b`. -/
theorem C10_call_identifies_method (v1 v2 : Vehicle κ σ ε) (ctx1 ctx2 : κ) (s1 s2 : σ)
    (l1 l2 : List (κ × SinkCall)) (m1 m2 : Method) :
    ∃ c1 c2 : SinkCall,
      (m1.invoke v1.recording ctx1 (s1, l1)).2.2 = l1 ++ [(ctx1, c1)] ∧
      (m2.invoke v2.recording ctx2 (s2, l2)).2.2 = l2 ++ [(ctx2, c2)] ∧
      (c1 = c2 ↔ m1 = m2) ∧
      (m1 ≠ m2 → c1 ≠ c2) ∧
      ∀ a b, m1 = Method.ChangeSunroofState a → m2 = Method.ChangeSunroofState b →
        c1 = c2 → a = b := by
  have key : ∃ c1 c2 : SinkCall,
      (m1.invoke v1.recording ctx1 (s1, l1)).2.2 = l1 ++ [(ctx1, c1)] ∧
      (m2.invoke v2.recording ctx2 (s2, l2)).2.2 = l2 ++ [(ctx2, c2)] ∧
      (c1 = c2 ↔ m1 = m2) := by
    cases m1 <;> cases m2 <;> exact ⟨_, _, rfl, rfl, by simp⟩
  obtain ⟨c1, c2, h1, h2, hiff⟩ := key
  refine ⟨c1, c2, h1, h2, hiff, fun hne hc => hne (hiff.1 hc), fun a b ha hb hc => ?_⟩
  have hm := hiff.1 hc
  rw [ha, hb] at hm
  exact Method.ChangeSunroofState.inj hm

/-- Witness for C10: on the sample vehicle `ActuateTrunk` and `OpenTrunk` each log
one sink call, and the two logged calls differ, as do `ChangeSunroofState 7` and
`ChangeSunroofState 8`. -/
theorem C10_call_identifies_method_witness :
    (∃ c1 c2 : SinkCall,
      (Method.ActuateTrunk.invoke sampleVehicle.recording 1 (0, [])).2.2 = [] ++ [(1, c1)] ∧
      (Method.OpenTrunk.invoke sampleVehicle.recording 2 (3, [])).2.2 = [] ++ [(2, c2)] ∧
      c1 ≠ c2) ∧
    (∃ c1 c2 : SinkCall,
      ((Method.ChangeSunroofState 7).invoke sampleVehicle.recording 1 (0, [])).2.2
        = [] ++ [(1, c1)] ∧
      ((Method.ChangeSunroofState 8).invoke sampleVehicle.recording 2 (3, [])).2.2
        = [] ++ [(2, c2)] ∧
      c1 ≠ c2) := by
  constructor
  · obtain ⟨c1, c2, h1, h2, -, hne, -⟩ :=
      C10_call_identifies_method sampleVehicle sampleVehicle 1 2 0 3 [] []
        Method.ActuateTrunk Method.OpenTrunk
    exact ⟨c1, c2, h1, h2, hne (by decide)⟩
  · obtain ⟨c1, c2, h1, h2, -, hne, -⟩ :=
      C10_call_identifies_method sampleVehicle sampleVehicle 1 2 0 3 [] []
        (Method.ChangeSunroofState 7) (Method.ChangeSunroofState 8)
    exact ⟨c1, c2, h1, h2, hne (by decide)⟩

end Claims

end vehicle
